import Mathlib

/-!
Shallow embedding of the selection/caching/rotation subsystem of the
Marvel random-character service (src/main.py, src/storage.py,
src/monitoring.py).

Modelling conventions:
* Timestamps are `Int` seconds (Python `datetime` arithmetic is a total
  order with subtraction, which `Int` reproduces; `timedelta(days=d)` is
  `d * daySecs`, `timedelta(hours=h)` is `h * hourSecs`).
* Python exceptions are values of `PyExc`; `try/except` blocks become
  `Except` plumbing.  `str(e)` on a `starlette.HTTPException` renders as
  `"<status>: <detail>"`, modelled by `strExc`.
* File-backed state is the `Storage` structure; a write that the source
  wraps in `try/except` (the failure is logged and swallowed) takes an
  explicit `Bool` outcome: `true` means the write reached disk, `false`
  means it raised and left the file as it was.
* The stored last response carries, next to the payload, the instant at
  which it was written (a history variable used only to state the
  pairing invariant of `save_last_response`; the JSON file itself holds
  just the payload).
* An unreadable or absent JSON file is `none` where the reader returns a
  default, and `FileContent.corrupt` where the distinction
  present-but-unparseable / absent matters (`get_related_items`).
-/

namespace MarvelApi

def hourSecs : Int := 3600

def daySecs : Int := 86400

/-- A lightweight related-item reference `{title, resourceURI}` as it
appears inside a character's `comics/stories/events/series` lists. -/
structure ItemRef where
  title : String
  resourceURI : String
deriving DecidableEq, Repr

/-- The normalized character detail built by `get_character_details`
(src/main.py lines 180-226).  The scalar fields other than `id` and the
per-category `available` counts are irrelevant to every claim and are
represented by `name`; the four related-item reference lists are kept
because `save_related_items` consumes them. -/
structure CharacterInfo where
  id : Nat
  name : String
  comicsItems : List ItemRef
  storiesItems : List ItemRef
  eventsItems : List ItemRef
  seriesItems : List ItemRef
deriving DecidableEq, Repr

/-- Attribution fields copied from the page response
(src/main.py lines 401-405). -/
structure Attribution where
  attributionText : String
  attributionHTML : String
  copyright : String
deriving DecidableEq, Repr

/-- The response envelope `{**attribution_info, "data": character_info}`
(src/main.py lines 418-421). -/
structure Envelope where
  attribution : Attribution
  data : CharacterInfo
deriving DecidableEq, Repr

/-- A simplified related-item detail record as written by the
`_save_*_detailed` helpers; its fields are irrelevant to the claims and
are abstracted into one payload. -/
structure SimpleItem where
  payload : String
deriving DecidableEq, Repr

/-- The on-disk shape of one related-item category file:
`{"saved_at": ..., "items": [...]}` (src/storage.py lines 188-192). -/
structure CategoryFile where
  saved_at : Int
  items : List SimpleItem
deriving DecidableEq, Repr

/-- Contents of a present JSON file: either parseable or corrupt
(malformed JSON / missing keys, which make `json.load` or the `['items']`
lookup raise). -/
inductive FileContent where
  | corrupt : FileContent
  | json : CategoryFile → FileContent
deriving DecidableEq, Repr

/-- The four related-item categories. -/
inductive Cat where
  | comics : Cat
  | stories : Cat
  | events : Cat
  | series : Cat
deriving DecidableEq, Repr

/-- The persisted state managed by `MarvelDataStorage`: the usage ledger
`used_characters.json` (id -> timestamp), the response cache
`last_response.json` / `last_call.json`, and the four category files.
The `Int` paired with the stored envelope is the write instant (history
variable, see the file docstring). -/
structure Storage where
  usedChars : List (Nat × Int)
  lastResponse : Option (Envelope × Int)
  lastCall : Option Int
  comicsFile : Option FileContent
  storiesFile : Option FileContent
  eventsFile : Option FileContent
  seriesFile : Option FileContent
deriving DecidableEq, Repr

def emptyStorage : Storage :=
  { usedChars := []
    lastResponse := none
    lastCall := none
    comicsFile := none
    storiesFile := none
    eventsFile := none
    seriesFile := none }

/-- Dictionary read `used_chars.get(str(id))`. -/
def lookupUsed (l : List (Nat × Int)) (characterId : Nat) : Option Int :=
  (l.find? (fun p => p.1 == characterId)).map (fun p => p.2)

/-- Dictionary write `used_chars[str(id)] = t` (last write wins). -/
def setUsed (l : List (Nat × Int)) (characterId : Nat) (t : Int) : List (Nat × Int) :=
  (characterId, t) :: l.filter (fun p => ! (p.1 == characterId))

/-- `MarvelDataStorage.save_character_usage` (src/storage.py lines 24-37):
reads the ledger, stamps `now` on the id and rewrites the file; an I/O
failure is logged and swallowed, leaving the file unchanged. -/
def save_character_usage (S : Storage) (characterId : Nat) (now : Int)
    (writeOk : Bool) : Storage :=
  if writeOk then { S with usedChars := setUsed S.usedChars characterId now } else S

/-- `MarvelDataStorage.is_character_recently_used` (src/storage.py lines
50-57): `last_used > now - timedelta(days=30*months)`. -/
def is_character_recently_used (S : Storage) (now : Int) (characterId : Nat)
    (months : Int) : Bool :=
  match lookupUsed S.usedChars characterId with
  | some lastUsed => decide (lastUsed > now - 30 * months * daySecs)
  | none => false

/-- `MarvelDataStorage.save_last_response` (src/storage.py lines 59-72):
writes `last_response.json`, then `last_call.json`; any exception is
logged and swallowed, so a failure of the first write leaves both files
untouched while a failure of the second leaves a fresh response next to
the stale timestamp. -/
def save_last_response (S : Storage) (responseData : Envelope) (now : Int)
    (respWriteOk tsWriteOk : Bool) : Storage :=
  if respWriteOk then
    if tsWriteOk then
      { S with lastResponse := some (responseData, now), lastCall := some now }
    else
      { S with lastResponse := some (responseData, now) }
  else S

/-- `MarvelDataStorage.get_last_response` (src/storage.py lines 74-83):
the payload of `last_response.json`, or `None` when absent/unreadable. -/
def get_last_response (S : Storage) : Option Envelope :=
  S.lastResponse.map (fun p => p.1)

/-- `MarvelDataStorage.should_make_new_call` (src/storage.py lines 85-97):
true when no last call is recorded or strictly more than 24 hours have
elapsed since it. -/
def should_make_new_call (S : Storage) (now : Int) : Bool :=
  match S.lastCall with
  | some lastCall => decide (now - lastCall > 24 * hourSecs)
  | none => true

/-- The reference list a category draws from,
`character_data.get(cat, {}).get('items', [])`. -/
def catRefs (info : CharacterInfo) : Cat → List ItemRef
  | Cat.comics => info.comicsItems
  | Cat.stories => info.storiesItems
  | Cat.events => info.eventsItems
  | Cat.series => info.seriesItems

/-- The persisted file of a category. -/
def catFile (S : Storage) : Cat → Option FileContent
  | Cat.comics => S.comicsFile
  | Cat.stories => S.storiesFile
  | Cat.events => S.eventsFile
  | Cat.series => S.seriesFile

/-- `MarvelDataStorage._delete_previous_related_files`
(src/storage.py lines 135-150). -/
def delete_previous_related_files (S : Storage) : Storage :=
  { S with comicsFile := none, storiesFile := none, eventsFile := none,
           seriesFile := none }

/-- One `_save_*_detailed` helper (src/storage.py lines 173-269): resolve
each reference via `_get_marvel_data` (which catches everything and
returns `None` on failure, so unresolved items are skipped), then write
the category file.  The whole body sits in a `try/except`, so an
exception (the write failing) is swallowed and the file, deleted
beforehand by the caller, stays absent. -/
def save_category_detailed (resolve : String → Option SimpleItem)
    (refs : List ItemRef) (now : Int) (writeOk : Bool) : Option FileContent :=
  let detailedItems := refs.filterMap (fun r => resolve r.resourceURI)
  if writeOk then some (FileContent.json { saved_at := now, items := detailedItems })
  else none

/-- `MarvelDataStorage.save_related_items` (src/storage.py lines 119-133):
delete all four previous category files, then resolve and write each
category in turn. -/
def save_related_items (S : Storage) (resolve : Cat → String → Option SimpleItem)
    (info : CharacterInfo) (now : Int) (w : Cat → Bool) : Storage :=
  let S0 := delete_previous_related_files S
  { S0 with
    comicsFile := save_category_detailed (resolve Cat.comics) info.comicsItems now (w Cat.comics)
    storiesFile := save_category_detailed (resolve Cat.stories) info.storiesItems now (w Cat.stories)
    eventsFile := save_category_detailed (resolve Cat.events) info.eventsItems now (w Cat.events)
    seriesFile := save_category_detailed (resolve Cat.series) info.seriesItems now (w Cat.series) }

/-- The four files in the order `get_related_items` reads them. -/
def relatedFileList (S : Storage) : List (String × Option FileContent) :=
  [("comics", S.comicsFile), ("stories", S.storiesFile),
   ("events", S.eventsFile), ("series", S.seriesFile)]

/-- The body of `get_related_items` before its `except`: an absent file
is skipped, a corrupt one raises, a parseable one contributes its
`items`. -/
def read_related_go : List (String × Option FileContent) →
    Except Unit (List (String × List SimpleItem))
  | [] => Except.ok []
  | (catName, file) :: rest =>
    match file with
    | none => read_related_go rest
    | some FileContent.corrupt => Except.error ()
    | some (FileContent.json f) =>
      (read_related_go rest).map (fun m => (catName, f.items) :: m)

/-- `MarvelDataStorage.get_related_items` (src/storage.py lines 271-303):
builds the category -> items mapping; any exception while reading makes
the whole call return `{}`. -/
def get_related_items (S : Storage) : List (String × List SimpleItem) :=
  match read_related_go (relatedFileList S) with
  | Except.ok m => m
  | Except.error _ => []

/-- A Python exception as it travels through the selector: either an
`HTTPException(status_code, detail)` or a `ValueError(msg)` (the one
`random.randint` raises on an empty range). -/
inductive PyExc where
  | http : Nat → String → PyExc
  | valueError : String → PyExc
deriving DecidableEq, Repr

/-- `str(e)`: starlette's `HTTPException.__str__` is
`"<status_code>: <detail>"`; `str(ValueError(msg))` is `msg`. -/
def strExc : PyExc → String
  | PyExc.http status detail => toString status ++ ": " ++ detail
  | PyExc.valueError msg => msg

/-- `results[0]` of a page fetch at one offset, together with the
response-level attribution fields (src/main.py lines 400-408). -/
structure PageResult where
  attribution : Attribution
  charId : Nat
  charName : String
deriving DecidableEq, Repr

/-- The remote catalog as the selector sees it: the total count, the
entity returned by a `limit=1` page fetch at an offset, the detail
payload for an id, and the per-category resolution of one `resourceURI`
performed by `_get_marvel_data` (which never raises: failures come back
as `none`).  Errors in the first three model the `HTTPException` raised
on a non-2xx response or the transport failure raised by `httpx`. -/
structure Catalog where
  total : Except PyExc Int
  page : Int → Except PyExc PageResult
  detail : Nat → Except PyExc CharacterInfo
  resolve : Cat → String → Option SimpleItem

/-- `random.randint(lo, hi)`: raises `ValueError` on an empty range,
otherwise yields a value in `[lo, hi]`; the draw is driven by the raw
value the injected random source produces. -/
def randint (lo hi : Int) (raw : Nat) : Except PyExc Int :=
  if hi < lo then Except.error (PyExc.valueError "empty range for randrange")
  else Except.ok (lo + (raw : Int) % (hi - lo + 1))

/-- `get_total_characters` (src/main.py lines 134-154): its blanket
`except` re-raises any failure, non-2xx statuses included, as
`HTTPException(500, str(e))`. -/
def get_total_characters (c : Catalog) : Except PyExc Int :=
  match c.total with
  | Except.ok n => Except.ok n
  | Except.error e => Except.error (PyExc.http 500 (strExc e))

/-- `validate_character_id` (src/main.py lines 156-158). -/
def validate_character_id (characterId : Nat) : Bool :=
  decide (1000000 ≤ characterId ∧ characterId ≤ 2000000)

/-- `get_character_details` (src/main.py lines 160-232): rejects an id
outside the accepted range (the `ValueError` is swallowed by the
function's own blanket `except`, which re-raises `HTTPException(500,
str(e))`); a fetch failure is re-raised the same way. -/
def get_character_details (c : Catalog) (characterId : Nat) :
    Except PyExc CharacterInfo :=
  if validate_character_id characterId then
    match c.detail characterId with
    | Except.ok info => Except.ok info
    | Except.error e => Except.error (PyExc.http 500 (strExc e))
  else
    Except.error (PyExc.http 500 ("Invalid character ID: " ++ toString characterId))

/-- Which of the selector's swallowed-failure writes reach disk. -/
structure WriteFlags where
  usage : Bool
  resp : Bool
  ts : Bool
  cats : Cat → Bool

def allWritesOk : WriteFlags :=
  { usage := true, resp := true, ts := true, cats := fun _ => true }

/-- The retry loop of `get_random_character` (src/main.py lines 377-431):
`fuel` counts the attempts left out of 50, `i` indexes the next draw of
the injected random source.  A candidate on cooldown burns one attempt;
an accepted candidate is detailed, recorded in the ledger (under the id
from the page fetch), cached, snapshotted, and returned.  Running out of
attempts raises the 503 of lines 433-436. -/
def selectAttempt (c : Catalog) (stream : Nat → Nat) (S : Storage) (now : Int)
    (w : WriteFlags) (total : Int) :
    Nat → Nat → Except PyExc (Envelope × Storage)
  | 0, _ =>
    Except.error
      (PyExc.http 503 "Could not find an unused character after multiple attempts")
  | fuel + 1, i =>
    match randint 0 (total - 1) (stream i) with
    | Except.error e => Except.error e
    | Except.ok offset =>
      match c.page offset with
      | Except.error e => Except.error e
      | Except.ok pr =>
        if is_character_recently_used S now pr.charId 6 then
          selectAttempt c stream S now w total fuel (i + 1)
        else
          match get_character_details c pr.charId with
          | Except.error e => Except.error e
          | Except.ok characterInfo =>
            let finalResponse : Envelope :=
              { attribution := pr.attribution, data := characterInfo }
            let S1 := save_character_usage S pr.charId now w.usage
            let S2 := save_last_response S1 finalResponse now w.resp w.ts
            let S3 := save_related_items S2 c.resolve characterInfo now w.cats
            Except.ok (finalResponse, S3)

/-- The stale-cache path of `get_random_character`: catalog sizing then
the 50-attempt loop. -/
def run_character_selection (c : Catalog) (stream : Nat → Nat) (S : Storage)
    (now : Int) (w : WriteFlags) : Except PyExc (Envelope × Storage) :=
  match get_total_characters c with
  | Except.error e => Except.error e
  | Except.ok total => selectAttempt c stream S now w total 50 0

/-- `get_random_character` (src/main.py lines 363-440).  The cached
envelope is served while the cache is fresh and a readable, truthy
cached response exists; otherwise a full selection runs.  The trailing
blanket `except Exception` catches every raise that escapes the body,
its own `HTTPException`s included, and re-raises `HTTPException(500,
str(e))`.  Every raise in the body precedes the persistence step, and
the persistence helpers swallow their own failures, so on an error the
state of entry is returned unchanged. -/
def get_random_character (c : Catalog) (stream : Nat → Nat) (S : Storage)
    (now : Int) (w : WriteFlags) : Except PyExc Envelope × Storage :=
  let body : Except PyExc (Envelope × Storage) :=
    if should_make_new_call S now then
      run_character_selection c stream S now w
    else
      match get_last_response S with
      | some cached => Except.ok (cached, S)
      | none => run_character_selection c stream S now w
  match body with
  | Except.ok res => (Except.ok res.1, res.2)
  | Except.error e => (Except.error (PyExc.http 500 (strExc e)), S)

/-- One alert record `{timestamp, type, message}`.  The numeric rendering
inside the error-rate message (`f"... {error_rate:.2%}"`) is abstracted
into a fixed string; no claim depends on the message text. -/
structure Alert where
  timestamp : Int
  type : String
  message : String
deriving DecidableEq, Repr

/-- The persistent counters of `api_stats.json` that the claims touch.
`average_response_time` (a float running mean) and the bookkeeping
timestamp `last_cleanup` are not modelled: no claim mentions them. -/
structure Stats where
  total_requests : Nat
  successful_requests : Nat
  failed_requests : Nat
  most_requested_characters : List (Nat × Nat)
  daily_requests : List (String × Nat)
  errors : List (Int × String)
deriving DecidableEq, Repr

/-- `api_stats.json` plus `alerts.json`. -/
structure MonitorState where
  stats : Stats
  alerts : List Alert
deriving DecidableEq, Repr

def initialStats : Stats :=
  { total_requests := 0, successful_requests := 0, failed_requests := 0,
    most_requested_characters := [], daily_requests := [], errors := [] }

def emptyMonitor : MonitorState :=
  { stats := initialStats, alerts := [] }

/-- `d.get(k, 0)` on a string-keyed counter dictionary. -/
def getCount (l : List (String × Nat)) (k : String) : Nat :=
  ((l.find? (fun p => p.1 == k)).map (fun p => p.2)).getD 0

/-- `d[k] = d.get(k, 0) + 1` on a string-keyed counter dictionary. -/
def bumpCount (l : List (String × Nat)) (k : String) : List (String × Nat) :=
  (k, getCount l k + 1) :: l.filter (fun p => ! (p.1 == k))

/-- `d[k] = d.get(k, 0) + 1` on the per-id histogram. -/
def bumpCharCount (l : List (Nat × Nat)) (k : Nat) : List (Nat × Nat) :=
  (k, (((l.find? (fun p => p.1 == k)).map (fun p => p.2)).getD 0) + 1) ::
    l.filter (fun p => ! (p.1 == k))

/-- `error_rate > 0.1` of `_check_alerts` (src/monitoring.py line 94-95),
with `error_rate = failed/total` guarded to 0 when `total = 0`.  The
comparison is stated in exact arithmetic: for the counter magnitudes
represented in these files the correctly-rounded float division of the
source agrees with it. -/
def error_rate_exceeded (stats : Stats) : Bool :=
  decide (10 * stats.failed_requests > stats.total_requests)

def errorRateAlert (now : Int) : Alert :=
  { timestamp := now, type := "ERROR_RATE", message := "High error rate detected" }

def rateLimitAlert (now : Int) : Alert :=
  { timestamp := now, type := "RATE_LIMIT", message := "Daily request limit approaching" }

/-- `MarvelAPIMonitor._check_alerts` (src/monitoring.py lines 89-112):
the new alerts produced by one evaluation, error-rate first. -/
def check_alerts (stats : Stats) (now : Int) (today : String) : List Alert :=
  (if error_rate_exceeded stats then [errorRateAlert now] else []) ++
    (if getCount stats.daily_requests today > 2000 then [rateLimitAlert now] else [])

/-- `MarvelAPIMonitor._save_alerts` (src/monitoring.py lines 114-129):
append the new alerts and keep only the last 100 (`[-100:]`). -/
def save_alerts (existing newAlerts : List Alert) : List Alert :=
  let allAlerts := existing ++ newAlerts
  allAlerts.drop (allAlerts.length - 100)

/-- `MarvelAPIMonitor.log_request` (src/monitoring.py lines 56-87):
update the counters, the bounded error log, the day bucket and the per-id
histogram (the Python guard `if character_id and success` also rejects
the falsy id 0), then evaluate the alert conditions; `_check_alerts`
writes the alert file only when some alert fired. -/
def log_request (st : MonitorState) (characterId : Option Nat) (success : Bool)
    (error : String) (now : Int) (today : String) : MonitorState :=
  let s0 := st.stats
  let s1 := { s0 with total_requests := s0.total_requests + 1 }
  let s2 :=
    if success then { s1 with successful_requests := s1.successful_requests + 1 }
    else
      { s1 with failed_requests := s1.failed_requests + 1,
                errors := (s1.errors ++ [(now, error)]).drop
                  ((s1.errors ++ [(now, error)]).length - 100) }
  let s3 := { s2 with daily_requests := bumpCount s2.daily_requests today }
  let s4 :=
    match characterId, success with
    | some cid, true =>
      if cid ≠ 0 then
        { s3 with most_requested_characters := bumpCharCount s3.most_requested_characters cid }
      else s3
    | _, _ => s3
  let newAlerts := check_alerts s4 now today
  { stats := s4,
    alerts := if newAlerts.isEmpty then st.alerts else save_alerts st.alerts newAlerts }

/-! Concrete fixtures used by the scenario theorems. -/

def attrA : Attribution :=
  { attributionText := "Data provided by Marvel"
    attributionHTML := ""
    copyright := "2025 MARVEL" }

/-- A detail payload whose related-item lists are empty. -/
def plainInfo (characterId : Nat) : CharacterInfo :=
  { id := characterId, name := "c" ++ toString characterId,
    comicsItems := [], storiesItems := [], eventsItems := [], seriesItems := [] }

/-- A deterministic catalog of the given size whose entity at offset `n`
has id `idOf n`, with every fetch succeeding. -/
def idCatalog (total : Int) (idOf : Int → Nat) : Catalog :=
  { total := Except.ok total
    page := fun offset =>
      Except.ok { attribution := attrA, charId := idOf offset, charName := "" }
    detail := fun cid => Except.ok (plainInfo cid)
    resolve := fun _ _ => none }

def envA : Envelope := { attribution := attrA, data := plainInfo 1000008 }

def envB : Envelope := { attribution := attrA, data := plainInfo 1000009 }

def itemA : SimpleItem := { payload := "item-a" }

/-- C1 scenario ledger: cooldown set exactly {5, 6, 7}. -/
def c1Storage : Storage := { emptyStorage with usedChars := [(5, 0), (6, 0), (7, 0)] }

/-- C1 amended-scenario ledger: cooldown set {1000005, 1000006, 1000007}. -/
def c1StorageValid : Storage :=
  { emptyStorage with usedChars := [(1000005, 0), (1000006, 0), (1000007, 0)] }

/-- C2 scenario ledger: the only entity of the size-1 catalog is on cooldown. -/
def c2Storage : Storage := { emptyStorage with usedChars := [(1000000, 0)] }

/-- The pairing invariant of the response cache: the persisted answer is
never newer than the persisted last-call timestamp. -/
def cache_pair_consistent (S : Storage) : Prop :=
  ∀ x te, S.lastResponse = some (x, te) → ∃ tc, S.lastCall = some tc ∧ te ≤ tc

/-- C6 scenario: a successful put at time 0, then a put at time 5 whose
response write lands but whose timestamp write fails. -/
def c6State : Storage :=
  save_last_response (save_last_response emptyStorage envA 0 true true) envB 5 true false

/-- C8 scenario: corrupt comics file next to a parseable stories file. -/
def c8State : Storage :=
  { emptyStorage with
    comicsFile := some FileContent.corrupt
    storiesFile := some (FileContent.json { saved_at := 0, items := [itemA] }) }

/-- The expected read-all result: one entry per present parseable file. -/
def parsedRelated (S : Storage) : List (String × List SimpleItem) :=
  (relatedFileList S).filterMap (fun p =>
    match p.2 with
    | some (FileContent.json f) => some (p.1, f.items)
    | _ => none)

/-- C9 scenario: a fresh last-call stamp with no readable cached answer. -/
def c9Storage : Storage := { emptyStorage with lastCall := some 0 }

/-! Helper lemmas shared by the claim theorems. -/

theorem lookupUsed_setUsed (l : List (Nat × Int)) (characterId : Nat) (t : Int) :
    lookupUsed (setUsed l characterId t) characterId = some t := by
  simp [lookupUsed, setUsed, List.find?]

/-- At most two alerts fire per evaluation. -/
theorem check_alerts_length_le (stats : Stats) (now : Int) (today : String) :
    (check_alerts stats now today).length ≤ 2 := by
  unfold check_alerts
  split <;> split <;> simp

/-- An element of the appended tail survives the keep-last-100 cut
whenever the tail is within the bound. -/
theorem mem_drop_append_of_mem_right (l₁ l₂ : List Alert) (a : Alert)
    (ha : a ∈ l₂) (hlen : l₂.length ≤ 100) :
    a ∈ (l₁ ++ l₂).drop ((l₁ ++ l₂).length - 100) := by
  have hk : (l₁ ++ l₂).length - 100 ≤ l₁.length := by
    simp only [List.length_append]
    omega
  rw [List.drop_append_of_le_length hk]
  exact List.mem_append_right _ ha

/-- The exception-free branch of `get_related_items`: with no corrupt
file the read succeeds and collects exactly the parseable files. -/
theorem read_related_go_ok (l : List (String × Option FileContent))
    (h : ∀ p ∈ l, p.2 ≠ some FileContent.corrupt) :
    read_related_go l = Except.ok (l.filterMap (fun p =>
      match p.2 with
      | some (FileContent.json f) => some (p.1, f.items)
      | _ => none)) := by
  induction l with
  | nil => rfl
  | cons hd tl ih =>
    obtain ⟨catName, file⟩ := hd
    have htl : ∀ p ∈ tl, p.2 ≠ some FileContent.corrupt := by
      intro p hp
      exact h p (List.mem_cons_of_mem _ hp)
    have hhd : file ≠ some FileContent.corrupt := h (catName, file) (List.mem_cons_self _ _)
    match file, hhd with
    | none, _ => simpa [read_related_go] using ih htl
    | some (FileContent.json f), _ =>
      simp [read_related_go, ih htl, Except.map]

/-! Claim theorems. -/

/-- C3 (counterexample): an id recorded at time 0 is off cooldown when
exactly 180 days have elapsed — the id is present, the elapsed time is
at most the cooldown, yet `is_character_recently_used` answers false,
against the claim's `now - ledger[id] <= cooldown` reading. -/
theorem C3_claim_counterexample :
    lookupUsed (save_character_usage emptyStorage 7 0 true).usedChars 7 = some 0 ∧
    (180 * daySecs - (0 : Int) ≤ 180 * daySecs) ∧
    is_character_recently_used (save_character_usage emptyStorage 7 0 true)
      (180 * daySecs) 7 6 = false := by
  refine ⟨rfl, by norm_num, by decide⟩

/-- C3 (amended): with the default 6-month window,
`is_character_recently_used` is true iff the id is recorded and strictly
less than `30*6 = 180` days have elapsed; a recorded id stays on
cooldown while the elapsed time is strictly below the cooldown and is
off cooldown at exactly 180 days. -/
theorem C3_cooldown_strict (S : Storage) (now : Int) (characterId : Nat) :
    (is_character_recently_used S now characterId 6 = true ↔
      ∃ t, lookupUsed S.usedChars characterId = some t ∧ now - t < 180 * daySecs) ∧
    (∀ t : Int, now - t < 180 * daySecs →
      is_character_recently_used (save_character_usage S characterId t true)
        now characterId 6 = true) ∧
    (∀ t : Int,
      is_character_recently_used (save_character_usage S characterId t true)
        (t + 180 * daySecs) characterId 6 = false) := by
  refine ⟨?_, ?_, ?_⟩
  · unfold is_character_recently_used
    cases h : lookupUsed S.usedChars characterId with
    | none => simp [h]
    | some t =>
      simp only [h, decide_eq_true_eq, Option.some.injEq]
      constructor
      · intro hgt
        exact ⟨t, rfl, by simp [daySecs] at hgt ⊢; omega⟩
      · rintro ⟨t', rfl, hlt⟩
        simp [daySecs] at hlt ⊢
        omega
  · intro t ht
    unfold is_character_recently_used save_character_usage
    simp only [if_true]
    rw [lookupUsed_setUsed]
    simp [daySecs] at ht ⊢
    omega
  · intro t
    unfold is_character_recently_used save_character_usage
    simp only [if_true]
    rw [lookupUsed_setUsed]
    simp [daySecs]

/-- C3 witness: an id recorded 5 seconds ago is on cooldown. -/
theorem C3_cooldown_strict_witness :
    is_character_recently_used (save_character_usage emptyStorage 7 0 true) 5 7 6 = true :=
  (C3_cooldown_strict emptyStorage 5 7).2.1 0 (by decide)

/-- C5: a put followed immediately by the staleness check reports fresh;
strictly more than 24 hours later it reports stale; and the get after
the put returns exactly the stored answer. -/
theorem C5_response_cache_roundtrip (S : Storage) (x : Envelope) (t : Int) :
    should_make_new_call (save_last_response S x t true true) t = false ∧
    (∀ now : Int, now - t > 24 * hourSecs →
      should_make_new_call (save_last_response S x t true true) now = true) ∧
    get_last_response (save_last_response S x t true true) = some x := by
  refine ⟨?_, ?_, ?_⟩
  · simp [save_last_response, should_make_new_call, hourSecs]
  · intro now h
    simp [save_last_response, should_make_new_call, hourSecs] at h ⊢
    omega
  · simp [save_last_response, get_last_response]

/-- C5 witness: stored at time 0, stale at 24 hours plus one second. -/
theorem C5_response_cache_roundtrip_witness :
    should_make_new_call (save_last_response emptyStorage envA 0 true true) 86401 = true :=
  (C5_response_cache_roundtrip emptyStorage envA 0).2.1 86401 (by decide)

/-- C6 (counterexample): a put whose response write lands but whose
timestamp write fails leaves a persisted answer written at time 5 next
to the untouched last-call stamp 0 — the reader observes an answer newer
than its timestamp, against the claimed application-level atomicity. -/
theorem C6_claim_counterexample :
    c6State.lastResponse = some (envB, 5) ∧
    c6State.lastCall = some 0 ∧
    ¬ cache_pair_consistent c6State := by
  refine ⟨rfl, rfl, fun h => ?_⟩
  obtain ⟨tc, htc, hle⟩ := h envB 5 rfl
  have h0 : (some 0 : Option Int) = some tc := htc
  cases h0
  omega

/-- C6 (amended): when both writes succeed the persisted answer and the
last-call stamp carry the same selection instant, so the pairing
invariant holds; when the response write fails nothing is updated; but
the write pair is not atomic — a failed timestamp write after a
successful response write (the counterexample) breaks the invariant and
is swallowed. -/
theorem C6_put_pairing (S : Storage) (x : Envelope) (t : Int) :
    (save_last_response S x t true true).lastResponse = some (x, t) ∧
    (save_last_response S x t true true).lastCall = some t ∧
    cache_pair_consistent (save_last_response S x t true true) ∧
    (∀ b : Bool, save_last_response S x t false b = S) := by
  refine ⟨rfl, rfl, ?_, fun b => rfl⟩
  intro y te h
  have h' : (some (x, t) : Option (Envelope × Int)) = some (y, te) := h
  cases h'
  exact ⟨t, rfl, le_refl t⟩

/-- C6 witness: a fully successful put stamps the write time. -/
theorem C6_put_pairing_witness :
    (save_last_response emptyStorage envA 3 true true).lastCall = some 3 :=
  (C6_put_pairing emptyStorage envA 3).2.1

/-- C4: after two successive snapshot replacements every category file
equals what the second call alone would have produced — nothing of the
first call survives; a written category holds exactly the second call's
successfully resolved items (an empty-but-present record when every
reference failed to resolve), and a category whose write raised is
absent. -/
theorem C4_snapshot_full_replace (S : Storage)
    (r1 r2 : Cat → String → Option SimpleItem) (i1 i2 : CharacterInfo)
    (t1 t2 : Int) (w1 w2 : Cat → Bool) :
    (∀ cat : Cat,
      catFile (save_related_items (save_related_items S r1 i1 t1 w1) r2 i2 t2 w2) cat =
        catFile (save_related_items S r2 i2 t2 w2) cat) ∧
    (∀ cat : Cat, w2 cat = true →
      catFile (save_related_items (save_related_items S r1 i1 t1 w1) r2 i2 t2 w2) cat =
        some (FileContent.json
          { saved_at := t2
            items := (catRefs i2 cat).filterMap (fun r => r2 cat r.resourceURI) })) ∧
    (∀ cat : Cat, w2 cat = true →
      (∀ r ∈ catRefs i2 cat, r2 cat r.resourceURI = none) →
      catFile (save_related_items (save_related_items S r1 i1 t1 w1) r2 i2 t2 w2) cat =
        some (FileContent.json { saved_at := t2, items := [] })) ∧
    (∀ cat : Cat, w2 cat = false →
      catFile (save_related_items (save_related_items S r1 i1 t1 w1) r2 i2 t2 w2) cat = none) := by
  refine ⟨fun cat => ?_, fun cat h => ?_, fun cat h hall => ?_, fun cat h => ?_⟩
  · cases cat <;> rfl
  · cases cat <;>
      simp [save_related_items, delete_previous_related_files, catFile,
        save_category_detailed, catRefs, h]
  · have hnil : (catRefs i2 cat).filterMap (fun r => r2 cat r.resourceURI) = [] :=
      List.filterMap_eq_nil_iff.mpr hall
    cases cat <;>
      simp_all [save_related_items, delete_previous_related_files, catFile,
        save_category_detailed, catRefs]
  · cases cat <;>
      simp [save_related_items, delete_previous_related_files, catFile,
        save_category_detailed, h]

/-- C4 witness: a failed second-call comics write leaves no comics file. -/
theorem C4_snapshot_full_replace_witness :
    catFile (save_related_items
      (save_related_items emptyStorage (fun _ _ => some itemA) (plainInfo 1) 0 (fun _ => true))
      (fun _ _ => none) (plainInfo 2) 1 (fun _ => false)) Cat.comics = none :=
  (C4_snapshot_full_replace emptyStorage (fun _ _ => some itemA) (fun _ _ => none)
    (plainInfo 1) (plainInfo 2) 0 1 (fun _ => true) (fun _ => false)).2.2.2 Cat.comics rfl

/-- C8 (counterexample): with a corrupt comics file next to a parseable
stories file, `get_related_items` returns the empty mapping — the
present-and-parseable stories category is dropped, against the claim
that the result contains every parseable category and omits exactly the
absent ones. -/
theorem C8_claim_counterexample :
    c8State.storiesFile = some (FileContent.json { saved_at := 0, items := [itemA] }) ∧
    get_related_items c8State = [] ∧
    ("stories", [itemA]) ∉ get_related_items c8State := by
  refine ⟨rfl, rfl, by decide⟩

/-- C8 (amended): `get_related_items` is total (any read failure yields
the empty mapping); when every present file is parseable it returns
exactly the present categories with their items, and with no data at all
it returns the empty mapping — but one corrupt file empties the whole
result (the counterexample). -/
theorem C8_read_all (S : Storage)
    (h : ∀ p ∈ relatedFileList S, p.2 ≠ some FileContent.corrupt) :
    get_related_items S = parsedRelated S ∧ get_related_items emptyStorage = [] := by
  constructor
  · unfold get_related_items parsedRelated
    rw [read_related_go_ok _ h]
  · rfl

/-- C8 witness: a single parseable stories file reads back as itself. -/
theorem C8_read_all_witness :
    get_related_items
      { emptyStorage with
        storiesFile := some (FileContent.json { saved_at := 0, items := [itemA] }) } =
      [("stories", [itemA])] := by
  rw [(C8_read_all _ (by decide)).1]
  rfl

/-- C9 (counterexample): with a fresh last-call stamp but no readable
cached answer, the request does not short-circuit — the full selection
runs and mutates the usage ledger, against the claim that a fresh cache
leaves all persisted state unchanged. -/
theorem C9_claim_counterexample :
    should_make_new_call c9Storage 0 = false ∧
    c9Storage.usedChars = [] ∧
    (get_random_character (idCatalog 10 (fun o => 1000000 + o.toNat)) (fun _ => 0)
        c9Storage 0 allWritesOk).2.usedChars = [(1000000, 0)] := by
  refine ⟨rfl, rfl, rfl⟩

/-- C9 (amended): when the cache is fresh and a readable cached answer
exists, the request returns that answer and the state unchanged, for
every catalog, random source and write-outcome — no catalog traffic, no
ledger mutation, no snapshot refresh; freshness alone does not suffice
(the counterexample). -/
theorem C9_fresh_cache_short_circuit (c : Catalog) (stream : Nat → Nat)
    (S : Storage) (now : Int) (w : WriteFlags) (r : Envelope)
    (hfresh : should_make_new_call S now = false)
    (hcached : get_last_response S = some r) :
    get_random_character c stream S now w = (Except.ok r, S) := by
  unfold get_random_character
  rw [hfresh, hcached]
  rfl

/-- C9 witness: a fresh cache holding `envA` is served back unchanged. -/
theorem C9_fresh_cache_short_circuit_witness :
    get_random_character (idCatalog 10 (fun o => 1000000 + o.toNat)) (fun _ => 0)
      { emptyStorage with lastCall := some 0, lastResponse := some (envA, 0) }
      0 allWritesOk =
      (Except.ok envA,
        { emptyStorage with lastCall := some 0, lastResponse := some (envA, 0) }) :=
  C9_fresh_cache_short_circuit _ _ _ _ _ _ rfl rfl

/-- C1 (counterexample): in the claimed scenario — cooldown set {5,6,7},
size-10 catalog returning id `n` at offset `n`, draws 5,6,7,8, stale
cache — the selection does not return the entity at offset 8: id 8 fails
the accepted-range validation `1000000 <= id <= 2000000`, so the request
errors with HTTP 500 and the ledger never records id 8. -/
theorem C1_claim_counterexample :
    (get_random_character (idCatalog 10 (fun o => o.toNat)) (fun i => 5 + i)
        c1Storage 0 allWritesOk).1 =
      Except.error (PyExc.http 500 "500: Invalid character ID: 8") ∧
    lookupUsed (get_random_character (idCatalog 10 (fun o => o.toNat)) (fun i => 5 + i)
        c1Storage 0 allWritesOk).2.usedChars 8 = none :=
  ⟨rfl, rfl⟩

/-- C1 (amended): with the scenario's ids shifted into the accepted
range — the entity at offset `n` has id `1000000 + n`, cooldown set
{1000005, 1000006, 1000007} — the draws 5,6,7,8 make the selection skip
three cooldown hits, return the entity fetched at offset 8, and record
its id with the selection timestamp in the ledger. -/
theorem C1_selector_rotation :
    (get_random_character (idCatalog 10 (fun o => 1000000 + o.toNat)) (fun i => 5 + i)
        c1StorageValid 0 allWritesOk).1 =
      Except.ok { attribution := attrA, data := plainInfo 1000008 } ∧
    lookupUsed (get_random_character (idCatalog 10 (fun o => 1000000 + o.toNat))
        (fun i => 5 + i) c1StorageValid 0 allWritesOk).2.usedChars 1000008 = some 0 :=
  ⟨rfl, rfl⟩

/-- C2: a size-1 catalog whose only entity is on cooldown exhausts all
50 attempts; the `HTTPException(503, ...)` the code then raises is
caught by the same function's blanket `except Exception` and re-raised
as `HTTPException(500, str(e))`, so the caller observes status 500 (with
the 503 surviving only inside the detail string), not a distinct
service-unavailable status; the state is untouched. -/
theorem C2_exhaustion_surfaces_as_500 :
    (get_random_character (idCatalog 1 (fun _ => 1000000)) (fun _ => 0)
        c2Storage 0 allWritesOk).1 =
      Except.error (PyExc.http 500
        "503: Could not find an unused character after multiple attempts") ∧
    (get_random_character (idCatalog 1 (fun _ => 1000000)) (fun _ => 0)
        c2Storage 0 allWritesOk).2 = c2Storage :=
  ⟨rfl, rfl⟩

/-- C10: when the catalog reports a total of 0, the offset draw
`random.randint(0, total-1)` raises on the empty range and the request
fails through the generic internal-error branch (HTTP 500 carrying the
`ValueError` message, neither upstream-wrapped nor the exhaustion 503);
and for every total >= 1 the drawn offset always lies within
`[0, total-1]`. -/
theorem C10_empty_catalog_and_offset_range :
    (∀ (c : Catalog) (stream : Nat → Nat) (S : Storage) (now : Int) (w : WriteFlags),
      c.total = Except.ok 0 → should_make_new_call S now = true →
      (get_random_character c stream S now w).1 =
        Except.error (PyExc.http 500 "empty range for randrange")) ∧
    (∀ (total : Int) (raw : Nat), 1 ≤ total →
      ∃ offset, randint 0 (total - 1) raw = Except.ok offset ∧
        0 ≤ offset ∧ offset ≤ total - 1) := by
  constructor
  · intro c stream S now w htotal hstale
    have hsel : selectAttempt c stream S now w 0 50 0 =
        Except.error (PyExc.valueError "empty range for randrange") := by
      show selectAttempt c stream S now w 0 (49 + 1) 0 = _
      unfold selectAttempt randint
      norm_num
    simp [get_random_character, hstale, run_character_selection,
      get_total_characters, htotal, hsel, strExc]
  · intro total raw htotal
    refine ⟨(raw : Int) % total, ?_, ?_, ?_⟩
    · unfold randint
      rw [if_neg (by omega)]
      have h1 : total - 1 - 0 + 1 = total := by omega
      simp only [Int.sub_zero] at h1 ⊢
      rw [h1, Int.zero_add]
    · exact Int.emod_nonneg _ (by omega)
    · have := Int.emod_lt_of_pos (raw : Int) (show (0 : Int) < total by omega)
      omega

/-- C10 witness: the empty catalog yields the wrapped `ValueError`, and
`randint 0 4` on raw draw 7 yields offset 2. -/
theorem C10_empty_catalog_and_offset_range_witness :
    (get_random_character (idCatalog 0 (fun o => o.toNat)) (fun _ => 0)
        emptyStorage 0 allWritesOk).1 =
      Except.error (PyExc.http 500 "empty range for randrange") ∧
    ∃ offset, randint 0 (5 - 1) 7 = Except.ok offset ∧ 0 ≤ offset ∧ offset ≤ 5 - 1 :=
  ⟨C10_empty_catalog_and_offset_range.1 (idCatalog 0 (fun o => o.toNat)) (fun _ => 0)
      emptyStorage 0 allWritesOk rfl rfl,
    C10_empty_catalog_and_offset_range.2 5 7 (by norm_num)⟩

/-- C7: after an event that leaves the cumulative failure count above a
tenth of the total, an error-rate alert timestamped at that event is in
the alert list; after an event that leaves the ratio at or below a
tenth, every error-rate alert in the list was already there before the
event; and whenever the event appended alerts, the stored list is the
keep-the-most-recent-100 cut of the old list followed by the new alerts
(earlier retained entries unmodified). -/
theorem C7_error_rate_alerting (st : MonitorState) (characterId : Option Nat)
    (success : Bool) (error : String) (now : Int) (today : String) :
    (10 * (log_request st characterId success error now today).stats.failed_requests >
        (log_request st characterId success error now today).stats.total_requests →
      errorRateAlert now ∈ (log_request st characterId success error now today).alerts) ∧
    (10 * (log_request st characterId success error now today).stats.failed_requests ≤
        (log_request st characterId success error now today).stats.total_requests →
      ∀ a ∈ (log_request st characterId success error now today).alerts,
        a.type = "ERROR_RATE" → a ∈ st.alerts) ∧
    (check_alerts (log_request st characterId success error now today).stats now today ≠ [] →
      (log_request st characterId success error now today).alerts.length ≤ 100 ∧
      (log_request st characterId success error now today).alerts =
        (st.alerts ++ check_alerts (log_request st characterId success error now today).stats
            now today).drop
          ((st.alerts ++ check_alerts (log_request st characterId success error now today).stats
              now today).length - 100)) := by
  set st' := log_request st characterId success error now today with hst'
  have halerts : st'.alerts =
      if (check_alerts st'.stats now today).isEmpty then st.alerts
      else save_alerts st.alerts (check_alerts st'.stats now today) := rfl
  refine ⟨?_, ?_, ?_⟩
  · intro hgt
    have hex : error_rate_exceeded st'.stats = true := by
      unfold error_rate_exceeded
      exact decide_eq_true hgt
    have hmem : errorRateAlert now ∈ check_alerts st'.stats now today := by
      unfold check_alerts
      rw [hex]
      simp
    have hlen : (check_alerts st'.stats now today).length ≤ 100 :=
      le_trans (check_alerts_length_le _ _ _) (by norm_num)
    have hb : (check_alerts st'.stats now today).isEmpty = false := by
      cases hc : check_alerts st'.stats now today with
      | nil => rw [hc] at hmem; cases hmem
      | cons a l => rfl
    rw [halerts, hb]
    simp only [Bool.false_eq_true, if_false]
    unfold save_alerts
    exact mem_drop_append_of_mem_right _ _ _ hmem hlen
  · intro hle a ha hty
    have hex : error_rate_exceeded st'.stats = false := by
      unfold error_rate_exceeded
      simp only [decide_eq_false_iff_not]
      omega
    have hsub : check_alerts st'.stats now today =
        if getCount st'.stats.daily_requests today > 2000 then [rateLimitAlert now]
        else [] := by
      unfold check_alerts
      rw [hex]
      simp
    by_cases hrl : getCount st'.stats.daily_requests today > 2000
    · rw [if_pos hrl] at hsub
      have hlist : st'.alerts = save_alerts st.alerts [rateLimitAlert now] := by
        rw [halerts, hsub]
        rfl
      rw [hlist] at ha
      unfold save_alerts at ha
      have ha' : a ∈ st.alerts ++ [rateLimitAlert now] := List.drop_subset _ _ ha
      rcases List.mem_append.mp ha' with h1 | h2
      · exact h1
      · rw [List.mem_singleton] at h2
        subst h2
        simp [rateLimitAlert] at hty
    · rw [if_neg hrl] at hsub
      have hlist : st'.alerts = st.alerts := by
        rw [halerts, hsub]
        rfl
      rwa [hlist] at ha
  · intro hne
    have hb : (check_alerts st'.stats now today).isEmpty = false := by
      cases hc : check_alerts st'.stats now today with
      | nil => exact absurd hc hne
      | cons a l => rfl
    have heq : st'.alerts = save_alerts st.alerts (check_alerts st'.stats now today) := by
      rw [halerts, hb]
      simp
    constructor
    · rw [heq]
      unfold save_alerts
      rw [List.length_drop]
      omega
    · rw [heq]
      rfl

/-- C7 witness: one failed request out of one trips the error-rate alert. -/
theorem C7_error_rate_alerting_witness :
    errorRateAlert 11 ∈ (log_request emptyMonitor none false "boom" 11 "2026-10-12").alerts :=
  (C7_error_rate_alerting emptyMonitor none false "boom" 11 "2026-10-12").1 (by decide)

end MarvelApi
